import Mathlib

/-!
Shallow embedding of the Inventory-Management-App persistence and
invoice-calculation service.

The embedding mirrors `src/database/database.ts` (the `DatabaseService`
class) and the invoice screen `CreateInvoiceScreen` (`calculateTotals`,
`addOrUpdateItem`, `handleSave`).

Modelling conventions:
* JavaScript numbers are modelled as `Rat` (the claims under study do not
  hinge on IEEE-754 rounding: every compared value is produced by the same
  arithmetic expression on both sides).
* SQLite tables are lists of rows in insertion order, with the
  AUTOINCREMENT counter carried explicitly; `ORDER BY name` reads sort,
  `ORDER BY created_at DESC` reads reverse insertion order.
* The `UNIQUE` constraints declared in the schema (`categories.name`,
  `invoices.invoice_number`) are enforced; the declared `FOREIGN KEY`
  clauses are not, because the code never issues `PRAGMA foreign_keys=ON`
  and expo-sqlite leaves enforcement off by default.
* The service holds `db : SQLite.SQLiteDatabase | null`; this is an
  `Option DBState`.  Every public method starts with
  `if (!this.db) throw new Error('Database not initialized')`, modelled by
  returning `Except.error "Database not initialized"` on `none` before any
  state is touched.
* `CURRENT_TIMESTAMP` columns are external real time and are omitted from
  the row structures; only the orderings derived from them are modelled.
-/

namespace Inventory

attribute [local semireducible] Rat.add Rat.sub Rat.mul

/-- A row of the `categories` table. -/
structure Category where
  id : Nat
  name : String
  description : String
  deriving DecidableEq, Repr

/-- A row of the `items` table. -/
structure Item where
  id : Nat
  name : String
  category_id : Nat
  price : Rat
  quantity : Rat
  description : String
  deriving DecidableEq, Repr

/-- A row of the `customers` table. -/
structure Customer where
  id : Nat
  name : String
  phone : String
  email : String
  deriving DecidableEq, Repr

/-- A row of the `invoices` table. -/
structure Invoice where
  id : Nat
  invoice_number : String
  customer_id : Nat
  invoice_date : String
  subtotal : Rat
  vat_amount : Rat
  total_amount : Rat
  deriving DecidableEq, Repr

/-- A row of the `invoice_items` table. -/
structure InvoiceItem where
  id : Nat
  invoice_id : Nat
  item_id : Nat
  quantity : Rat
  unit_price : Rat
  extended_amount : Rat
  deriving DecidableEq, Repr

/-- The persisted database: the five tables in insertion order plus the
AUTOINCREMENT counters. -/
structure DBState where
  categories : List Category
  items : List Item
  customers : List Customer
  invoices : List Invoice
  invoice_items : List InvoiceItem
  nextCategoryId : Nat
  nextItemId : Nat
  nextCustomerId : Nat
  nextInvoiceId : Nat
  nextInvoiceItemId : Nat
  deriving DecidableEq, Repr

/-- A freshly created database file, before any row is inserted
(SQLite row ids start at 1). -/
def emptyDB : DBState :=
  ⟨[], [], [], [], [], 1, 1, 1, 1, 1⟩

/-! ### Store operations on an open database (the success-path SQL semantics) -/

/-- `SELECT * FROM categories ORDER BY name`. -/
def getCategoriesInner (db : DBState) : List Category :=
  db.categories.mergeSort (fun a b => a.name ≤ b.name)

/-- `INSERT INTO categories (name, description) VALUES (?, ?)` with
`description || ''`; fails on the `UNIQUE` constraint of `name`.
Returns `lastInsertRowId`. -/
def addCategoryInner (db : DBState) (name : String) (description : Option String) :
    Except String (Nat × DBState) :=
  if db.categories.any (fun c => c.name == name) then
    .error "UNIQUE constraint failed: categories.name"
  else
    .ok (db.nextCategoryId,
      { db with
        categories := db.categories ++ [⟨db.nextCategoryId, name, description.getD ""⟩],
        nextCategoryId := db.nextCategoryId + 1 })

/-- `UPDATE categories SET name = ?, description = ? WHERE id = ?` with
`description || ''`; fails when a row is updated and another row already
carries the new name. -/
def updateCategoryInner (db : DBState) (id : Nat) (name : String)
    (description : Option String) : Except String DBState :=
  if db.categories.any (fun c => c.id == id) &&
     db.categories.any (fun c => c.id != id && c.name == name) then
    .error "UNIQUE constraint failed: categories.name"
  else
    .ok { db with
      categories := db.categories.map (fun c =>
        if c.id == id then { c with name := name, description := description.getD "" }
        else c) }

/-- `DELETE FROM categories WHERE id = ?`: unconditional removal, no
cascade, no existence check. -/
def deleteCategoryInner (db : DBState) (id : Nat) : DBState :=
  { db with categories := db.categories.filter (fun c => c.id != id) }

/-- `SELECT * FROM items ORDER BY name`. -/
def getItemsInner (db : DBState) : List Item :=
  db.items.mergeSort (fun a b => a.name ≤ b.name)

/-- `SELECT * FROM items WHERE category_id = ? ORDER BY name`. -/
def getItemsByCategoryInner (db : DBState) (categoryId : Nat) : List Item :=
  (db.items.filter (fun i => i.category_id == categoryId)).mergeSort
    (fun a b => a.name ≤ b.name)

/-- `INSERT INTO items (name, category_id, price, quantity, description)`
with `description || ''`. Returns `lastInsertRowId`. -/
def addItemInner (db : DBState) (name : String) (categoryId : Nat)
    (price quantity : Rat) (description : Option String) : Nat × DBState :=
  (db.nextItemId,
    { db with
      items := db.items ++ [⟨db.nextItemId, name, categoryId, price, quantity, description.getD ""⟩],
      nextItemId := db.nextItemId + 1 })

/-- `UPDATE items SET name = ?, category_id = ?, price = ?, quantity = ?,
description = ? WHERE id = ?` with `description || ''`. -/
def updateItemInner (db : DBState) (id : Nat) (name : String) (categoryId : Nat)
    (price quantity : Rat) (description : Option String) : DBState :=
  { db with
    items := db.items.map (fun i =>
      if i.id == id then
        { i with name := name, category_id := categoryId, price := price,
                 quantity := quantity, description := description.getD "" }
      else i) }

/-- `UPDATE items SET quantity = ? WHERE id = ?`. -/
def updateItemQuantityInner (db : DBState) (id : Nat) (quantity : Rat) : DBState :=
  { db with
    items := db.items.map (fun i =>
      if i.id == id then { i with quantity := quantity } else i) }

/-- `DELETE FROM items WHERE id = ?`. -/
def deleteItemInner (db : DBState) (id : Nat) : DBState :=
  { db with items := db.items.filter (fun i => i.id != id) }

/-- `SELECT * FROM customers ORDER BY name`. -/
def getCustomersInner (db : DBState) : List Customer :=
  db.customers.mergeSort (fun a b => a.name ≤ b.name)

/-- `INSERT INTO customers (name, phone, email)` with `email || ''`.
Returns `lastInsertRowId`. -/
def addCustomerInner (db : DBState) (name phone : String) (email : Option String) :
    Nat × DBState :=
  (db.nextCustomerId,
    { db with
      customers := db.customers ++ [⟨db.nextCustomerId, name, phone, email.getD ""⟩],
      nextCustomerId := db.nextCustomerId + 1 })

/-- `UPDATE customers SET name = ?, phone = ?, email = ? WHERE id = ?`
with `email || ''`. -/
def updateCustomerInner (db : DBState) (id : Nat) (name phone : String)
    (email : Option String) : DBState :=
  { db with
    customers := db.customers.map (fun c =>
      if c.id == id then { c with name := name, phone := phone, email := email.getD "" }
      else c) }

/-- `DELETE FROM customers WHERE id = ?`. -/
def deleteCustomerInner (db : DBState) (id : Nat) : DBState :=
  { db with customers := db.customers.filter (fun c => c.id != id) }

/-- `SELECT * FROM invoices ORDER BY created_at DESC`: newest first,
i.e. reverse insertion order. -/
def getInvoicesInner (db : DBState) : List Invoice :=
  db.invoices.reverse

/-- `INSERT INTO invoices (invoice_number, customer_id, invoice_date,
subtotal, vat_amount, total_amount)`; fails on the `UNIQUE` constraint of
`invoice_number`. Returns `lastInsertRowId`. -/
def addInvoiceInner (db : DBState) (invoiceNumber : String) (customerId : Nat)
    (invoiceDate : String) (subtotal vatAmount totalAmount : Rat) :
    Except String (Nat × DBState) :=
  if db.invoices.any (fun inv => inv.invoice_number == invoiceNumber) then
    .error "UNIQUE constraint failed: invoices.invoice_number"
  else
    .ok (db.nextInvoiceId,
      { db with
        invoices := db.invoices ++
          [⟨db.nextInvoiceId, invoiceNumber, customerId, invoiceDate,
            subtotal, vatAmount, totalAmount⟩],
        nextInvoiceId := db.nextInvoiceId + 1 })

/-- `INSERT INTO invoice_items (invoice_id, item_id, quantity, unit_price,
extended_amount)`: the five caller-supplied values are stored verbatim. -/
def addInvoiceItemInner (db : DBState) (invoiceId itemId : Nat)
    (quantity unitPrice extendedAmount : Rat) : DBState :=
  { db with
    invoice_items := db.invoice_items ++
      [⟨db.nextInvoiceItemId, invoiceId, itemId, quantity, unitPrice, extendedAmount⟩],
    nextInvoiceItemId := db.nextInvoiceItemId + 1 }

/-- `UPDATE invoices SET customer_id = ?, invoice_date = ?, subtotal = ?,
vat_amount = ?, total_amount = ? WHERE id = ?`. -/
def updateInvoiceInner (db : DBState) (id : Nat) (customerId : Nat)
    (invoiceDate : String) (subtotal vatAmount totalAmount : Rat) : DBState :=
  { db with
    invoices := db.invoices.map (fun inv =>
      if inv.id == id then
        { inv with customer_id := customerId, invoice_date := invoiceDate,
                   subtotal := subtotal, vat_amount := vatAmount,
                   total_amount := totalAmount }
      else inv) }

/-- `DELETE FROM invoice_items WHERE invoice_id = ?`. -/
def deleteInvoiceItemsInner (db : DBState) (invoiceId : Nat) : DBState :=
  { db with invoice_items := db.invoice_items.filter (fun r => r.invoice_id != invoiceId) }

/-- `SELECT * FROM invoice_items WHERE invoice_id = ?`. -/
def getInvoiceItemsInner (db : DBState) (invoiceId : Nat) : List InvoiceItem :=
  db.invoice_items.filter (fun r => r.invoice_id == invoiceId)

/-- `getDashboardStats`: the three `SELECT COUNT(*)` row counts
(items, invoices, customers). -/
def getDashboardStatsInner (db : DBState) : Nat × Nat × Nat :=
  (db.items.length, db.invoices.length, db.customers.length)

/-! ### Decimal rendering: JavaScript `String(n)` and `padStart` -/

/-- The decimal digit characters, as produced by JavaScript number
formatting for a single digit. -/
def digitChar : Nat → Char
  | 0 => '0' | 1 => '1' | 2 => '2' | 3 => '3' | 4 => '4'
  | 5 => '5' | 6 => '6' | 7 => '7' | 8 => '8' | 9 => '9'
  | _ => '*'

/-- Digit-extraction worker for `toDecList`; the fuel argument only
bounds the recursion depth (one division by ten per step), it never runs
out when it starts at least at `n + 1`. -/
def toDecListAux : Nat → Nat → List Char
  | 0, _ => []
  | fuel + 1, n =>
      if n < 10 then [digitChar n]
      else toDecListAux fuel (n / 10) ++ [digitChar (n % 10)]

/-- The decimal digits of `n`, most significant first: the character data
of JavaScript `String(n)` for a natural number. -/
def toDecList (n : Nat) : List Char :=
  toDecListAux (n + 1) n

/-- JavaScript `String(n)` for a natural number. -/
def jsString (n : Nat) : String :=
  ⟨toDecList n⟩

/-- JavaScript `Math.max` on two numbers. -/
def jsMax (a b : Rat) : Rat :=
  if a ≤ b then b else a

/-- JavaScript `s.padStart(len, c)`: prepend copies of `c` until the
length reaches `len` (no-op when `s` is already at least that long). -/
def padStart (s : String) (len : Nat) (c : Char) : String :=
  ⟨List.replicate (len - s.data.length) c ++ s.data⟩

/-- `generateInvoiceNumber()`:
``INV-${String(count + 1).padStart(6, '0')}`` where `count` is
`SELECT COUNT(*) FROM invoices`. -/
def generateInvoiceNumberInner (db : DBState) : String :=
  "INV-" ++ padStart (jsString (db.invoices.length + 1)) 6 '0'

/-- Reads the digit characters back into a number
(`'0'`..`'9'` have code points 48..57). -/
def fromDecList (l : List Char) : Nat :=
  l.foldl (fun a c => a * 10 + (c.toNat - 48)) 0

/-- The numeric part of an `INV-NNNNNN` string: drop the 4-character
prefix and read the remaining digits. -/
def decodeNum (s : String) : Nat :=
  fromDecList (s.data.drop 4)

/-- The invoice number the scheme assigns to the `m`-th created invoice. -/
def mkNum (m : Nat) : String :=
  "INV-" ++ padStart (jsString m) 6 '0'

/-! ### The `DatabaseService` public surface

The class field `db` is `null` until `initDatabase` runs; every public
method first checks it.  `none` models the un-initialized service. -/

namespace DatabaseService

/-- `getCategories()`. -/
def getCategories : Option DBState → Except String (List Category)
  | none => .error "Database not initialized"
  | some db => .ok (getCategoriesInner db)

/-- `addCategory(name, description?)`. -/
def addCategory : Option DBState → String → Option String → Except String (Nat × DBState)
  | none, _, _ => .error "Database not initialized"
  | some db, name, description => addCategoryInner db name description

/-- `updateCategory(id, name, description?)`. -/
def updateCategory : Option DBState → Nat → String → Option String → Except String DBState
  | none, _, _, _ => .error "Database not initialized"
  | some db, id, name, description => updateCategoryInner db id name description

/-- `deleteCategory(id)`. -/
def deleteCategory : Option DBState → Nat → Except String DBState
  | none, _ => .error "Database not initialized"
  | some db, id => .ok (deleteCategoryInner db id)

/-- `getItems()`. -/
def getItems : Option DBState → Except String (List Item)
  | none => .error "Database not initialized"
  | some db => .ok (getItemsInner db)

/-- `getItemsByCategory(categoryId)`. -/
def getItemsByCategory : Option DBState → Nat → Except String (List Item)
  | none, _ => .error "Database not initialized"
  | some db, categoryId => .ok (getItemsByCategoryInner db categoryId)

/-- `addItem(name, categoryId, price, quantity, description?)`. -/
def addItem : Option DBState → String → Nat → Rat → Rat → Option String →
    Except String (Nat × DBState)
  | none, _, _, _, _, _ => .error "Database not initialized"
  | some db, name, categoryId, price, quantity, description =>
      .ok (addItemInner db name categoryId price quantity description)

/-- `updateItem(id, name, categoryId, price, quantity, description?)`. -/
def updateItem : Option DBState → Nat → String → Nat → Rat → Rat → Option String →
    Except String DBState
  | none, _, _, _, _, _, _ => .error "Database not initialized"
  | some db, id, name, categoryId, price, quantity, description =>
      .ok (updateItemInner db id name categoryId price quantity description)

/-- `updateItemQuantity(id, quantity)`. -/
def updateItemQuantity : Option DBState → Nat → Rat → Except String DBState
  | none, _, _ => .error "Database not initialized"
  | some db, id, quantity => .ok (updateItemQuantityInner db id quantity)

/-- `deleteItem(id)`. -/
def deleteItem : Option DBState → Nat → Except String DBState
  | none, _ => .error "Database not initialized"
  | some db, id => .ok (deleteItemInner db id)

/-- `getCustomers()`. -/
def getCustomers : Option DBState → Except String (List Customer)
  | none => .error "Database not initialized"
  | some db => .ok (getCustomersInner db)

/-- `addCustomer(name, phone, email?)`. -/
def addCustomer : Option DBState → String → String → Option String →
    Except String (Nat × DBState)
  | none, _, _, _ => .error "Database not initialized"
  | some db, name, phone, email => .ok (addCustomerInner db name phone email)

/-- `updateCustomer(id, name, phone, email?)`. -/
def updateCustomer : Option DBState → Nat → String → String → Option String →
    Except String DBState
  | none, _, _, _, _ => .error "Database not initialized"
  | some db, id, name, phone, email => .ok (updateCustomerInner db id name phone email)

/-- `deleteCustomer(id)`. -/
def deleteCustomer : Option DBState → Nat → Except String DBState
  | none, _ => .error "Database not initialized"
  | some db, id => .ok (deleteCustomerInner db id)

/-- `getInvoices()`. -/
def getInvoices : Option DBState → Except String (List Invoice)
  | none => .error "Database not initialized"
  | some db => .ok (getInvoicesInner db)

/-- `generateInvoiceNumber()`. -/
def generateInvoiceNumber : Option DBState → Except String String
  | none => .error "Database not initialized"
  | some db => .ok (generateInvoiceNumberInner db)

/-- `addInvoice(invoiceNumber, customerId, invoiceDate, subtotal,
vatAmount, totalAmount)`. -/
def addInvoice : Option DBState → String → Nat → String → Rat → Rat → Rat →
    Except String (Nat × DBState)
  | none, _, _, _, _, _, _ => .error "Database not initialized"
  | some db, num, customerId, date, subtotal, vatAmount, totalAmount =>
      addInvoiceInner db num customerId date subtotal vatAmount totalAmount

/-- `addInvoiceItem(invoiceId, itemId, quantity, unitPrice, extendedAmount)`. -/
def addInvoiceItem : Option DBState → Nat → Nat → Rat → Rat → Rat → Except String DBState
  | none, _, _, _, _, _ => .error "Database not initialized"
  | some db, invoiceId, itemId, quantity, unitPrice, extendedAmount =>
      .ok (addInvoiceItemInner db invoiceId itemId quantity unitPrice extendedAmount)

/-- `updateInvoice(id, customerId, invoiceDate, subtotal, vatAmount,
totalAmount)`. -/
def updateInvoice : Option DBState → Nat → Nat → String → Rat → Rat → Rat →
    Except String DBState
  | none, _, _, _, _, _, _ => .error "Database not initialized"
  | some db, id, customerId, date, subtotal, vatAmount, totalAmount =>
      .ok (updateInvoiceInner db id customerId date subtotal vatAmount totalAmount)

/-- `deleteInvoiceItems(invoiceId)`. -/
def deleteInvoiceItems : Option DBState → Nat → Except String DBState
  | none, _ => .error "Database not initialized"
  | some db, invoiceId => .ok (deleteInvoiceItemsInner db invoiceId)

/-- `getInvoiceItems(invoiceId)`. -/
def getInvoiceItems : Option DBState → Nat → Except String (List InvoiceItem)
  | none, _ => .error "Database not initialized"
  | some db, invoiceId => .ok (getInvoiceItemsInner db invoiceId)

/-- `getDashboardStats()`. -/
def getDashboardStats : Option DBState → Except String (Nat × Nat × Nat)
  | none => .error "Database not initialized"
  | some db => .ok (getDashboardStatsInner db)

end DatabaseService

/-! ### Initialization and seed data -/

/-- One `INSERT OR IGNORE INTO categories (name, description) VALUES (?, ?)`:
insert only when no live category carries the name. -/
def seedCategory (db : DBState) (name description : String) : DBState :=
  if db.categories.any (fun c => c.name == name) then db
  else
    { db with
      categories := db.categories ++ [⟨db.nextCategoryId, name, description⟩],
      nextCategoryId := db.nextCategoryId + 1 }

/-- `insertDefaultData()`: the four default categories, in source order
(failures are swallowed; `INSERT OR IGNORE` itself never fails). -/
def insertDefaultData (db : DBState) : DBState :=
  seedCategory
    (seedCategory
      (seedCategory
        (seedCategory db "Electronics" "Electronic devices and accessories")
        "Clothing" "Apparel and fashion items")
      "Books" "Books and educational materials")
    "Home & Garden" "Home improvement and garden supplies"

/-- `initDatabase()`: open the persisted file, `createTables()`
(`CREATE TABLE IF NOT EXISTS`, a no-op on the persisted rows), then
`insertDefaultData()`. -/
def initDatabase (db : DBState) : DBState :=
  insertDefaultData db

/-! ### The invoice screen (`CreateInvoiceScreen`) -/

/-- A line item held in the screen's form state (`InvoiceItemData`). -/
structure InvoiceItemData where
  item_id : Nat
  item_name : String
  quantity : Rat
  unit_price : Rat
  extended_amount : Rat
  deriving DecidableEq, Repr

/-- `const VAT_RATE = 0.15`. -/
def VAT_RATE : Rat := 15 / 100

/-- `calculateTotals()`: `subtotal = items.reduce((sum, item) => sum +
item.extended_amount, 0)`, `vatAmount = subtotal * VAT_RATE`,
`total = subtotal + vatAmount`. -/
def calculateTotals (lines : List InvoiceItemData) : Rat × Rat × Rat :=
  let subtotal := lines.foldl (fun sum item => sum + item.extended_amount) 0
  let vatAmount := subtotal * VAT_RATE
  (subtotal, vatAmount, subtotal + vatAmount)

/-- `addOrUpdateItem()`: validate the modal inputs, build the new line
with `extended_amount: quantity * price`, and either overwrite the line
at `editingItemIndex` or push it.  `none` models every early `return`
(validation failure or item not found), which leaves the form unchanged. -/
def addOrUpdateItem (items : List Item) (selectedItemId : Nat) (quantity price : Rat)
    (lines : List InvoiceItemData) (editingItemIndex : Int) :
    Option (List InvoiceItemData) :=
  if selectedItemId == 0 then none
  else if quantity ≤ 0 then none
  else if price ≤ 0 then none
  else
    match items.find? (fun i => i.id == selectedItemId) with
    | none => none
    | some item =>
      let newItem : InvoiceItemData :=
        ⟨selectedItemId, item.name, quantity, price, quantity * price⟩
      some (if 0 ≤ editingItemIndex then lines.set editingItemIndex.toNat newItem
            else lines ++ [newItem])

/-- One iteration of the create-path loop in `handleSave`: insert the
`invoice_items` row, then look the item up in the screen's `items`
snapshot and, when found, write `Math.max(0, currentItem.quantity -
item.quantity)` as its new stock quantity. -/
def processLine (screenItems : List Item) (invoiceId : Nat) (db : DBState)
    (l : InvoiceItemData) : DBState :=
  let db1 := addInvoiceItemInner db invoiceId l.item_id l.quantity l.unit_price
    l.extended_amount
  match screenItems.find? (fun i => i.id == l.item_id) with
  | some currentItem =>
      updateItemQuantityInner db1 l.item_id (jsMax 0 (currentItem.quantity - l.quantity))
  | none => db1

/-- `handleSave()`: validation guards, `calculateTotals`, then either the
update path (`updateInvoice`; `deleteInvoiceItems`; re-insert every line)
or the create path (`addInvoice`; per line `addInvoiceItem` plus the stock
decrement against the `items` snapshot loaded at screen open). -/
def handleSave (db : DBState) (screenItems : List Item) (invoiceId : Option Nat)
    (invoiceNumber : String) (customerId : Nat) (invoiceDate : String)
    (lines : List InvoiceItemData) : Except String DBState :=
  if customerId == 0 then .error "Please select a customer"
  else if lines.isEmpty then .error "Please add at least one item"
  else
    let t := calculateTotals lines
    match invoiceId with
    | some invId =>
        let db1 := updateInvoiceInner db invId customerId invoiceDate t.1 t.2.1 t.2.2
        let db2 := deleteInvoiceItemsInner db1 invId
        .ok (lines.foldl (fun d l =>
          addInvoiceItemInner d invId l.item_id l.quantity l.unit_price l.extended_amount) db2)
    | none =>
        match addInvoiceInner db invoiceNumber customerId invoiceDate t.1 t.2.1 t.2.2 with
        | .error e => .error e
        | .ok (newId, db1) => .ok (lines.foldl (processLine screenItems newId) db1)

/-! ### A run of invoice creations -/

/-- The caller-chosen data of one invoice creation (everything except the
generated invoice number). -/
structure CreateParams where
  customerId : Nat
  invoiceDate : String
  subtotal : Rat
  vatAmount : Rat
  totalAmount : Rat
  deriving DecidableEq, Repr

/-- A sequential run of invoice creations with no deletions: each step
generates the invoice number from the current store state and inserts the
invoice row with it (the screen generates at open, saves next). -/
def runCreate (db : DBState) : List CreateParams → DBState
  | [] => db
  | p :: ps =>
      match addInvoiceInner db (generateInvoiceNumberInner db) p.customerId
        p.invoiceDate p.subtotal p.vatAmount p.totalAmount with
      | .ok (_, db1) => runCreate db1 ps
      | .error _ => runCreate db ps

/-- What one create-path loop iteration does to a single item row: the
stock write, when it happens, always takes its minuend from the
`screenItems` snapshot, never from the evolving database. -/
def lineQtyMap (screenItems : List Item) (l : InvoiceItemData) (it : Item) : Item :=
  match screenItems.find? (fun i => i.id == l.item_id) with
  | some currentItem =>
      if it.id == l.item_id then
        { it with quantity := jsMax 0 (currentItem.quantity - l.quantity) }
      else it
  | none => it

/-- The cumulative effect of the create-path loop on one item row: every
line is applied in order, each against the fixed `screenItems` snapshot. -/
def applyLines (screenItems : List Item) (lines : List InvoiceItemData) (it : Item) :
    Item :=
  lines.foldl (fun a l => lineQtyMap screenItems l a) it

/-- The `invoice_items` rows the create-path loop appends for `lines`,
starting from AUTOINCREMENT value `start`. -/
def lineRows (invoiceId start : Nat) : List InvoiceItemData → List InvoiceItem
  | [] => []
  | l :: ls =>
      ⟨start, invoiceId, l.item_id, l.quantity, l.unit_price, l.extended_amount⟩ ::
        lineRows invoiceId (start + 1) ls

/-- A populated database used to instantiate universally quantified
claims at a concrete state. -/
def dbW : DBState :=
  ⟨[⟨1, "Electronics", "seeded"⟩],
   [⟨1, "Phone", 1, 500, 3, ""⟩],
   [⟨1, "Ada", "555", ""⟩],
   [⟨1, "INV-000001", 1, "2024-01-01", 500, 75, 575⟩],
   [⟨1, 1, 1, 1, 500, 500⟩],
   2, 2, 2, 2, 2⟩

/-- A database holding one item with stock 10, used to exercise the
create path on concrete inputs. -/
def db0 : DBState :=
  ⟨[], [⟨1, "Widget", 1, 5, 10, ""⟩], [], [], [], 1, 2, 1, 1, 1⟩

/-- Two screen lines that both reference item 1, with quantities 3 and 5. -/
def lines0 : List InvoiceItemData :=
  [⟨1, "Widget", 3, 1, 3⟩, ⟨1, "Widget", 5, 1, 5⟩]

/-- Forty-two identical creation requests. -/
def ps42 : List CreateParams :=
  List.replicate 42 ⟨1, "2024-01-01", 0, 0, 0⟩

/-! ## Helper lemmas -/

/-- A pointwise-identity map leaves a list unchanged. -/
theorem list_map_id_of_mem {α} {f : α → α} :
    ∀ {l : List α}, (∀ a ∈ l, f a = a) → l.map f = l
  | [], _ => rfl
  | a :: l, h => by
    simp only [List.map_cons, h a (List.mem_cons_self a l),
      list_map_id_of_mem (fun b hb => h b (List.mem_cons_of_mem a hb))]

/-- A filter whose predicate holds on every member leaves a list unchanged. -/
theorem list_filter_id_of_mem {α} {p : α → Bool} :
    ∀ {l : List α}, (∀ a ∈ l, p a = true) → l.filter p = l
  | [], _ => rfl
  | a :: l, h => by
    simp only [List.filter_cons, h a (List.mem_cons_self a l), if_pos,
      list_filter_id_of_mem (fun b hb => h b (List.mem_cons_of_mem a hb))]

/-- Seeding never removes or rewrites an existing category row. -/
theorem seed_mem {db : DBState} {n d : String} {c : Category}
    (h : c ∈ db.categories) : c ∈ (seedCategory db n d).categories := by
  unfold seedCategory
  split
  · exact h
  · exact List.mem_append_left _ h

/-- After seeding a name, some category carries it. -/
theorem seed_hasName_self (db : DBState) (n d : String) :
    (seedCategory db n d).categories.any (fun c => c.name == n) = true := by
  unfold seedCategory
  split
  · assumption
  · simp [List.any_append]

/-- Seeding preserves the presence of any category name. -/
theorem seed_hasName_mono {db : DBState} {m : String}
    (h : db.categories.any (fun c => c.name == m) = true) (n d : String) :
    (seedCategory db n d).categories.any (fun c => c.name == m) = true := by
  unfold seedCategory
  split
  · exact h
  · simp [List.any_append, h]

/-- `INSERT OR IGNORE` is the identity when the name is already taken. -/
theorem seed_skip {db : DBState} {n d : String}
    (h : db.categories.any (fun c => c.name == n) = true) :
    seedCategory db n d = db := by
  unfold seedCategory
  rw [if_pos h]

/-- Seeding keeps every per-name row count at `max 1` of its old value. -/
theorem seed_countP (db : DBState) (n' d' n : String) :
    (seedCategory db n' d').categories.countP (fun c => c.name == n) ≤
      max 1 (db.categories.countP (fun c => c.name == n)) := by
  unfold seedCategory
  split
  · exact le_max_right _ _
  · rename_i h
    rw [List.countP_append]
    by_cases hn : n' = n
    · subst hn
      have h0 : db.categories.countP (fun c => c.name == n') = 0 := by
        have hf : db.categories.any (fun c => c.name == n') = false :=
          Bool.eq_false_iff.mpr h
        rw [List.countP_eq_zero]
        exact List.any_eq_false.mp hf
      simp [h0, List.countP_cons]
    · have : (List.countP (fun c => c.name == n) [(⟨db.nextCategoryId, n', d'⟩ : Category)]) = 0 := by
        simp [List.countP_cons, hn]
      rw [this]
      simp

/-- Seeding preserves "at most one row per name". -/
theorem seed_countP_le_one {db : DBState} {n : String} (n' d' : String)
    (h : db.categories.countP (fun c => c.name == n) ≤ 1) :
    (seedCategory db n' d').categories.countP (fun c => c.name == n) ≤ 1 :=
  le_trans (seed_countP db n' d' n) (max_le le_rfl h)

/-! ## The claims -/

/-- C6: store initialization is idempotent on the seed data: running
`initDatabase` twice yields the same state as once; every pre-existing
category row (user edits included) survives untouched; and no category
name held at most once before is duplicated. -/
theorem C6_initialization_idempotent (db : DBState) :
    initDatabase (initDatabase db) = initDatabase db ∧
    (∀ c ∈ db.categories, c ∈ (initDatabase db).categories) ∧
    (∀ n : String, db.categories.countP (fun c => c.name == n) ≤ 1 →
      (initDatabase db).categories.countP (fun c => c.name == n) ≤ 1) := by
  refine ⟨?_, ?_, ?_⟩
  · show insertDefaultData (insertDefaultData db) = insertDefaultData db
    have h1 : (insertDefaultData db).categories.any
        (fun c => c.name == "Electronics") = true := by
      unfold insertDefaultData
      exact seed_hasName_mono (seed_hasName_mono (seed_hasName_mono
        (seed_hasName_self _ _ _) _ _) _ _) _ _
    have h2 : (insertDefaultData db).categories.any
        (fun c => c.name == "Clothing") = true := by
      unfold insertDefaultData
      exact seed_hasName_mono (seed_hasName_mono (seed_hasName_self _ _ _) _ _) _ _
    have h3 : (insertDefaultData db).categories.any
        (fun c => c.name == "Books") = true := by
      unfold insertDefaultData
      exact seed_hasName_mono (seed_hasName_self _ _ _) _ _
    have h4 : (insertDefaultData db).categories.any
        (fun c => c.name == "Home & Garden") = true := by
      unfold insertDefaultData
      exact seed_hasName_self _ _ _
    conv in insertDefaultData (insertDefaultData db) => rw [insertDefaultData]
    rw [seed_skip h1, seed_skip h2, seed_skip h3, seed_skip h4]
  · intro c hc
    exact seed_mem (seed_mem (seed_mem (seed_mem hc)))
  · intro n hn
    exact seed_countP_le_one _ _ (seed_countP_le_one _ _
      (seed_countP_le_one _ _ (seed_countP_le_one _ _ hn)))

/-- C7: every public store operation invoked before `initDatabase` has
completed fails fast with the distinct "Database not initialized" error;
the guard runs before anything else, so no state is read or written. -/
theorem C7_uninitialized_fails_fast :
    DatabaseService.getCategories none = .error "Database not initialized" ∧
    (∀ n d, DatabaseService.addCategory none n d = .error "Database not initialized") ∧
    (∀ i n d, DatabaseService.updateCategory none i n d = .error "Database not initialized") ∧
    (∀ i, DatabaseService.deleteCategory none i = .error "Database not initialized") ∧
    DatabaseService.getItems none = .error "Database not initialized" ∧
    (∀ c, DatabaseService.getItemsByCategory none c = .error "Database not initialized") ∧
    (∀ n c p q d, DatabaseService.addItem none n c p q d = .error "Database not initialized") ∧
    (∀ i n c p q d, DatabaseService.updateItem none i n c p q d =
      .error "Database not initialized") ∧
    (∀ i q, DatabaseService.updateItemQuantity none i q = .error "Database not initialized") ∧
    (∀ i, DatabaseService.deleteItem none i = .error "Database not initialized") ∧
    DatabaseService.getCustomers none = .error "Database not initialized" ∧
    (∀ n p e, DatabaseService.addCustomer none n p e = .error "Database not initialized") ∧
    (∀ i n p e, DatabaseService.updateCustomer none i n p e =
      .error "Database not initialized") ∧
    (∀ i, DatabaseService.deleteCustomer none i = .error "Database not initialized") ∧
    DatabaseService.getInvoices none = .error "Database not initialized" ∧
    DatabaseService.generateInvoiceNumber none = .error "Database not initialized" ∧
    (∀ n c dt s v t, DatabaseService.addInvoice none n c dt s v t =
      .error "Database not initialized") ∧
    (∀ i it q u e, DatabaseService.addInvoiceItem none i it q u e =
      .error "Database not initialized") ∧
    (∀ i c dt s v t, DatabaseService.updateInvoice none i c dt s v t =
      .error "Database not initialized") ∧
    (∀ i, DatabaseService.deleteInvoiceItems none i = .error "Database not initialized") ∧
    (∀ i, DatabaseService.getInvoiceItems none i = .error "Database not initialized") ∧
    DatabaseService.getDashboardStats none = .error "Database not initialized" :=
  ⟨rfl, fun _ _ => rfl, fun _ _ _ => rfl, fun _ => rfl, rfl, fun _ => rfl,
    fun _ _ _ _ _ => rfl, fun _ _ _ _ _ _ => rfl, fun _ _ => rfl, fun _ => rfl, rfl,
    fun _ _ _ => rfl, fun _ _ _ _ => rfl, fun _ => rfl, rfl, rfl,
    fun _ _ _ _ _ _ => rfl, fun _ _ _ _ _ => rfl, fun _ _ _ _ _ _ => rfl,
    fun _ => rfl, fun _ => rfl, rfl⟩

/-- C8: `deleteCategory(id)` removes exactly the category rows matching
`id` and never raises — also when the category is referenced by an
existing item — and the items, customers, invoices and invoice_items
tables are left row-for-row unchanged, so a referencing item keeps its
now-dangling `category_id`. -/
theorem C8_delete_category_frame (db : DBState) (id : Nat) :
    DatabaseService.deleteCategory (some db) id = .ok (deleteCategoryInner db id) ∧
    (deleteCategoryInner db id).categories = db.categories.filter (fun c => c.id != id) ∧
    (deleteCategoryInner db id).items = db.items ∧
    (deleteCategoryInner db id).customers = db.customers ∧
    (deleteCategoryInner db id).invoices = db.invoices ∧
    (deleteCategoryInner db id).invoice_items = db.invoice_items :=
  ⟨rfl, rfl, rfl, rfl, rfl, rfl⟩

/-- C10: every update or delete aimed at an id that is absent from the
corresponding table succeeds without raising and leaves the whole store
state unchanged — a silent no-op with no existence check. -/
theorem C10_missing_id_silent_noop :
    (∀ db id n d, (∀ c ∈ db.categories, c.id ≠ id) →
      DatabaseService.updateCategory (some db) id n d = .ok db) ∧
    (∀ db id n cid p q d, (∀ it ∈ db.items, it.id ≠ id) →
      DatabaseService.updateItem (some db) id n cid p q d = .ok db) ∧
    (∀ db id q, (∀ it ∈ db.items, it.id ≠ id) →
      DatabaseService.updateItemQuantity (some db) id q = .ok db) ∧
    (∀ db id n p e, (∀ c ∈ db.customers, c.id ≠ id) →
      DatabaseService.updateCustomer (some db) id n p e = .ok db) ∧
    (∀ db id c dt s v t, (∀ inv ∈ db.invoices, inv.id ≠ id) →
      DatabaseService.updateInvoice (some db) id c dt s v t = .ok db) ∧
    (∀ db id, (∀ c ∈ db.categories, c.id ≠ id) →
      DatabaseService.deleteCategory (some db) id = .ok db) ∧
    (∀ db id, (∀ it ∈ db.items, it.id ≠ id) →
      DatabaseService.deleteItem (some db) id = .ok db) ∧
    (∀ db id, (∀ c ∈ db.customers, c.id ≠ id) →
      DatabaseService.deleteCustomer (some db) id = .ok db) ∧
    (∀ db invId, (∀ r ∈ db.invoice_items, r.invoice_id ≠ invId) →
      DatabaseService.deleteInvoiceItems (some db) invId = .ok db) := by
  refine ⟨?_, ?_, ?_, ?_, ?_, ?_, ?_, ?_, ?_⟩
  · intro db id n d h
    have hany : db.categories.any (fun c => c.id == id) = false := by
      rw [List.any_eq_false]; intro c hc; simp [h c hc]
    have hmap : db.categories.map (fun c =>
        if c.id == id then { c with name := n, description := d.getD "" } else c) =
        db.categories :=
      list_map_id_of_mem (fun c hc => if_neg (by simp [h c hc]))
    show updateCategoryInner db id n d = .ok db
    unfold updateCategoryInner
    rw [hany]
    rw [if_neg (by simp)]
    rw [hmap]
  · intro db id n cid p q d h
    have hmap : db.items.map (fun i =>
        if i.id == id then
          { i with name := n, category_id := cid, price := p, quantity := q,
                   description := d.getD "" }
        else i) = db.items :=
      list_map_id_of_mem (fun i hi => if_neg (by simp [h i hi]))
    show Except.ok (updateItemInner db id n cid p q d) = .ok db
    unfold updateItemInner
    rw [hmap]
  · intro db id q h
    have hmap : db.items.map (fun i =>
        if i.id == id then { i with quantity := q } else i) = db.items :=
      list_map_id_of_mem (fun i hi => if_neg (by simp [h i hi]))
    show Except.ok (updateItemQuantityInner db id q) = .ok db
    unfold updateItemQuantityInner
    rw [hmap]
  · intro db id n p e h
    have hmap : db.customers.map (fun c =>
        if c.id == id then { c with name := n, phone := p, email := e.getD "" } else c) =
        db.customers :=
      list_map_id_of_mem (fun c hc => if_neg (by simp [h c hc]))
    show Except.ok (updateCustomerInner db id n p e) = .ok db
    unfold updateCustomerInner
    rw [hmap]
  · intro db id c dt s v t h
    have hmap : db.invoices.map (fun inv =>
        if inv.id == id then
          { inv with customer_id := c, invoice_date := dt, subtotal := s,
                     vat_amount := v, total_amount := t }
        else inv) = db.invoices :=
      list_map_id_of_mem (fun inv hi => if_neg (by simp [h inv hi]))
    show Except.ok (updateInvoiceInner db id c dt s v t) = .ok db
    unfold updateInvoiceInner
    rw [hmap]
  · intro db id h
    have hfil : db.categories.filter (fun c => c.id != id) = db.categories :=
      list_filter_id_of_mem (fun c hc => by simp [h c hc])
    show Except.ok (deleteCategoryInner db id) = .ok db
    unfold deleteCategoryInner
    rw [hfil]
  · intro db id h
    have hfil : db.items.filter (fun i => i.id != id) = db.items :=
      list_filter_id_of_mem (fun i hi => by simp [h i hi])
    show Except.ok (deleteItemInner db id) = .ok db
    unfold deleteItemInner
    rw [hfil]
  · intro db id h
    have hfil : db.customers.filter (fun c => c.id != id) = db.customers :=
      list_filter_id_of_mem (fun c hc => by simp [h c hc])
    show Except.ok (deleteCustomerInner db id) = .ok db
    unfold deleteCustomerInner
    rw [hfil]
  · intro db invId h
    have hfil : db.invoice_items.filter (fun r => r.invoice_id != invId) =
        db.invoice_items :=
      list_filter_id_of_mem (fun r hr => by simp [h r hr])
    show Except.ok (deleteInvoiceItemsInner db invId) = .ok db
    unfold deleteInvoiceItemsInner
    rw [hfil]

/-- C10 witness: at the concrete populated state `dbW`, id 99 is absent
from every table and each of the nine operations returns the state
unchanged. -/
theorem C10_missing_id_silent_noop_witness :
    DatabaseService.updateCategory (some dbW) 99 "X" none = .ok dbW ∧
    DatabaseService.updateItem (some dbW) 99 "X" 1 1 1 none = .ok dbW ∧
    DatabaseService.updateItemQuantity (some dbW) 99 7 = .ok dbW ∧
    DatabaseService.updateCustomer (some dbW) 99 "X" "p" none = .ok dbW ∧
    DatabaseService.updateInvoice (some dbW) 99 1 "d" 1 1 1 = .ok dbW ∧
    DatabaseService.deleteCategory (some dbW) 99 = .ok dbW ∧
    DatabaseService.deleteItem (some dbW) 99 = .ok dbW ∧
    DatabaseService.deleteCustomer (some dbW) 99 = .ok dbW ∧
    DatabaseService.deleteInvoiceItems (some dbW) 99 = .ok dbW :=
  ⟨C10_missing_id_silent_noop.1 dbW 99 "X" none (by decide),
   C10_missing_id_silent_noop.2.1 dbW 99 "X" 1 1 1 none (by decide),
   C10_missing_id_silent_noop.2.2.1 dbW 99 7 (by decide),
   C10_missing_id_silent_noop.2.2.2.1 dbW 99 "X" "p" none (by decide),
   C10_missing_id_silent_noop.2.2.2.2.1 dbW 99 1 "d" 1 1 1 (by decide),
   C10_missing_id_silent_noop.2.2.2.2.2.1 dbW 99 (by decide),
   C10_missing_id_silent_noop.2.2.2.2.2.2.1 dbW 99 (by decide),
   C10_missing_id_silent_noop.2.2.2.2.2.2.2.1 dbW 99 (by decide),
   C10_missing_id_silent_noop.2.2.2.2.2.2.2.2 dbW 99 (by decide)⟩

/-- C9: when the optional field is absent (`description` for
Category/Item, `email` for Customer), create and update persist the empty
string in its place (`x || ''`), and the read operations return that
empty string rather than an absent value. -/
theorem C9_absent_optional_persists_empty :
    (∀ db name, (∀ c ∈ db.categories, c.name ≠ name) →
      ∃ db', DatabaseService.addCategory (some db) name none = .ok (db.nextCategoryId, db') ∧
        ∃ c ∈ getCategoriesInner db',
          c.id = db.nextCategoryId ∧ c.name = name ∧ c.description = "") ∧
    (∀ db id name, (∀ c ∈ db.categories, c.name ≠ name) →
      ∃ db', DatabaseService.updateCategory (some db) id name none = .ok db' ∧
        ∀ c ∈ getCategoriesInner db', c.id = id → c.description = "") ∧
    (∀ db n cid p q,
      ∃ db', DatabaseService.addItem (some db) n cid p q none = .ok (db.nextItemId, db') ∧
        ∃ it ∈ getItemsInner db', it.id = db.nextItemId ∧ it.description = "") ∧
    (∀ db id n cid p q,
      ∃ db', DatabaseService.updateItem (some db) id n cid p q none = .ok db' ∧
        ∀ it ∈ getItemsInner db', it.id = id → it.description = "") ∧
    (∀ db n p,
      ∃ db', DatabaseService.addCustomer (some db) n p none = .ok (db.nextCustomerId, db') ∧
        ∃ c ∈ getCustomersInner db', c.id = db.nextCustomerId ∧ c.email = "") ∧
    (∀ db id n p,
      ∃ db', DatabaseService.updateCustomer (some db) id n p none = .ok db' ∧
        ∀ c ∈ getCustomersInner db', c.id = id → c.email = "") := by
  refine ⟨?_, ?_, ?_, ?_, ?_, ?_⟩
  · intro db name h
    have hany : db.categories.any (fun c => c.name == name) = false := by
      rw [List.any_eq_false]; intro c hc; simp [h c hc]
    refine ⟨{ db with
        categories := db.categories ++ [⟨db.nextCategoryId, name, ""⟩],
        nextCategoryId := db.nextCategoryId + 1 }, ?_, ?_⟩
    · show addCategoryInner db name none = _
      unfold addCategoryInner
      rw [hany]
      rfl
    · refine ⟨⟨db.nextCategoryId, name, ""⟩, ?_, rfl, rfl, rfl⟩
      unfold getCategoriesInner
      rw [List.mem_mergeSort]
      simp
  · intro db id name h
    have hany2 : db.categories.any (fun c => c.id != id && c.name == name) = false := by
      rw [List.any_eq_false]; intro c hc; simp [h c hc]
    refine ⟨{ db with
        categories := db.categories.map (fun c =>
          if c.id == id then { c with name := name, description := "" } else c) }, ?_, ?_⟩
    · show updateCategoryInner db id name none = _
      unfold updateCategoryInner
      rw [hany2, Bool.and_false]
      rfl
    · intro c hc hid
      have hc' : c ∈ db.categories.map (fun c =>
          if c.id == id then { c with name := name, description := "" } else c) := by
        unfold getCategoriesInner at hc
        exact List.mem_mergeSort.mp hc
      obtain ⟨c0, hc0, rfl⟩ := List.mem_map.mp hc'
      by_cases h0 : c0.id = id
      · simp [h0]
      · rw [if_neg (by simp [h0])] at hid ⊢
        exact absurd hid h0
  · intro db n cid p q
    refine ⟨{ db with
        items := db.items ++ [⟨db.nextItemId, n, cid, p, q, ""⟩],
        nextItemId := db.nextItemId + 1 }, rfl, ?_⟩
    refine ⟨⟨db.nextItemId, n, cid, p, q, ""⟩, ?_, rfl, rfl⟩
    unfold getItemsInner
    rw [List.mem_mergeSort]
    simp
  · intro db id n cid p q
    refine ⟨{ db with
        items := db.items.map (fun i =>
          if i.id == id then
            { i with name := n, category_id := cid, price := p, quantity := q,
                     description := "" }
          else i) }, rfl, ?_⟩
    intro it hit hid
    have hit' : it ∈ db.items.map (fun i =>
        if i.id == id then
          { i with name := n, category_id := cid, price := p, quantity := q,
                   description := "" }
        else i) := by
      unfold getItemsInner at hit
      exact List.mem_mergeSort.mp hit
    obtain ⟨i0, hi0, rfl⟩ := List.mem_map.mp hit'
    by_cases h0 : i0.id = id
    · simp [h0]
    · rw [if_neg (by simp [h0])] at hid ⊢
      exact absurd hid h0
  · intro db n p
    refine ⟨{ db with
        customers := db.customers ++ [⟨db.nextCustomerId, n, p, ""⟩],
        nextCustomerId := db.nextCustomerId + 1 }, rfl, ?_⟩
    refine ⟨⟨db.nextCustomerId, n, p, ""⟩, ?_, rfl, rfl⟩
    unfold getCustomersInner
    rw [List.mem_mergeSort]
    simp
  · intro db id n p
    refine ⟨{ db with
        customers := db.customers.map (fun c =>
          if c.id == id then { c with name := n, phone := p, email := "" } else c) },
      rfl, ?_⟩
    intro c hc hid
    have hc' : c ∈ db.customers.map (fun c =>
        if c.id == id then { c with name := n, phone := p, email := "" } else c) := by
      unfold getCustomersInner at hc
      exact List.mem_mergeSort.mp hc
    obtain ⟨c0, hc0, rfl⟩ := List.mem_map.mp hc'
    by_cases h0 : c0.id = id
    · simp [h0]
    · rw [if_neg (by simp [h0])] at hid ⊢
      exact absurd hid h0

/-- C9 witness: at `dbW`, adding category "Books" with no description and
updating category 1 to "Gadgets" with no description both persist and
read back the empty string. -/
theorem C9_absent_optional_persists_empty_witness :
    (∃ db', DatabaseService.addCategory (some dbW) "Books" none =
        .ok (dbW.nextCategoryId, db') ∧
      ∃ c ∈ getCategoriesInner db',
        c.id = dbW.nextCategoryId ∧ c.name = "Books" ∧ c.description = "") ∧
    (∃ db', DatabaseService.updateCategory (some dbW) 1 "Gadgets" none = .ok db' ∧
      ∀ c ∈ getCategoriesInner db', c.id = 1 → c.description = "") :=
  ⟨C9_absent_optional_persists_empty.1 dbW "Books" (by decide),
   C9_absent_optional_persists_empty.2.1 dbW 1 "Gadgets" (by decide)⟩

/-- C6 witness: initialization applied twice to the fresh database equals
one application, and the seeded "Books" name appears at most once. -/
theorem C6_initialization_idempotent_witness :
    initDatabase (initDatabase emptyDB) = initDatabase emptyDB ∧
    (initDatabase emptyDB).categories.countP (fun c => c.name == "Books") ≤ 1 :=
  ⟨(C6_initialization_idempotent emptyDB).1,
   (C6_initialization_idempotent emptyDB).2.2 "Books" (by decide)⟩

/-- C5: the invoice update path replaces the invoice row and its line
items but performs no stock reversal or reapplication: every item row —
its quantity in particular — is unchanged after the update completes. -/
theorem C5_update_leaves_stock (db : DBState) (screenItems : List Item) (invId : Nat)
    (num : String) (cid : Nat) (date : String) (lines : List InvoiceItemData)
    (h1 : cid ≠ 0) (h2 : lines ≠ []) :
    ∃ db', handleSave db screenItems (some invId) num cid date lines = .ok db' ∧
      db'.items = db.items := by
  have key : ∀ (ls : List InvoiceItemData) (d : DBState),
      (ls.foldl (fun d l =>
        addInvoiceItemInner d invId l.item_id l.quantity l.unit_price l.extended_amount)
        d).items = d.items := by
    intro ls
    induction ls with
    | nil => intro d; rfl
    | cons l ls ih => intro d; rw [List.foldl_cons, ih]; rfl
  unfold handleSave
  rw [if_neg (by simp [h1]), if_neg (by simp [h2])]
  refine ⟨_, rfl, ?_⟩
  rw [key]
  rfl

/-- C5 witness: a concrete update of invoice 1 at `dbW` succeeds and
leaves the item table unchanged. -/
theorem C5_update_leaves_stock_witness :
    ∃ db', handleSave dbW dbW.items (some 1) "INV-000001" 1 "2024-02-02"
        [⟨1, "Phone", 2, 500, 1000⟩] = .ok db' ∧ db'.items = dbW.items :=
  C5_update_leaves_stock dbW dbW.items 1 "INV-000001" 1 "2024-02-02"
    [⟨1, "Phone", 2, 500, 1000⟩] (by decide) (by decide)

/-- C3 counterexample: `addInvoiceItem` — the store's invoice-save entry
point for line items — persists a caller-supplied extended_amount of 7
for a line with quantity 2 and unit price 3 exactly as given, although
2 × 3 = 6: the store does not recompute. -/
theorem C3_store_recompute_cex :
    ∃ db', DatabaseService.addInvoiceItem (some emptyDB) 1 1 2 3 7 = .ok db' ∧
      ∃ r ∈ db'.invoice_items, r.quantity = 2 ∧ r.unit_price = 3 ∧
        r.extended_amount = 7 ∧ r.extended_amount ≠ r.quantity * r.unit_price :=
  ⟨addInvoiceItemInner emptyDB 1 1 2 3 7, rfl, by decide⟩

/-- C3 (amended): the store persists the caller-supplied extended_amount
verbatim, without recomputation; the invariant extended_amount =
quantity × unit_price nevertheless holds for every line the screen's
`addOrUpdateItem` constructs, because that function computes the product
when the line enters the form. -/
theorem C3_extended_amount_amended :
    (∀ db invId itemId (q p ext : Rat),
      (addInvoiceItemInner db invId itemId q p ext).invoice_items =
        db.invoice_items ++ [⟨db.nextInvoiceItemId, invId, itemId, q, p, ext⟩]) ∧
    (∀ items sel (q p : Rat) lines idx lines',
      addOrUpdateItem items sel q p lines idx = some lines' →
      ∀ l ∈ lines', l ∈ lines ∨ l.extended_amount = l.quantity * l.unit_price) := by
  refine ⟨fun _ _ _ _ _ _ => rfl, ?_⟩
  intro items sel q p lines idx lines' h l hl
  unfold addOrUpdateItem at h
  split at h
  · exact absurd h (by simp)
  split at h
  · exact absurd h (by simp)
  split at h
  · exact absurd h (by simp)
  split at h
  · exact absurd h (by simp)
  · rename_i item hfind
    rw [Option.some_inj] at h
    subst h
    split at hl
    · rcases List.mem_or_eq_of_mem_set hl with hmem | rfl
      · exact Or.inl hmem
      · exact Or.inr rfl
    · rcases List.mem_append.mp hl with hmem | hnew
      · exact Or.inl hmem
      · rw [List.mem_singleton.mp hnew]
        exact Or.inr rfl

/-- C3 witness: the first part evaluated at the concrete call of the
counterexample input, and the second at a concrete `addOrUpdateItem` call
that builds the line for item 1 with quantity 2 and price 500. -/
theorem C3_extended_amount_amended_witness :
    (addInvoiceItemInner emptyDB 1 1 2 3 7).invoice_items =
      emptyDB.invoice_items ++ [⟨emptyDB.nextInvoiceItemId, 1, 1, 2, 3, 7⟩] ∧
    (∀ l ∈ [(⟨1, "Phone", 2, 500, 1000⟩ : InvoiceItemData)],
      l ∈ ([] : List InvoiceItemData) ∨
        l.extended_amount = l.quantity * l.unit_price) :=
  ⟨C3_extended_amount_amended.1 emptyDB 1 1 2 3 7,
   C3_extended_amount_amended.2 dbW.items 1 2 500 [] (-1)
     [⟨1, "Phone", 2, 500, 1000⟩] (by decide)⟩

/-- The create-path loop appends exactly the `lineRows` of the lines to
`invoice_items`, in order. -/
theorem processLines_invoice_items (si : List Item) (invId : Nat) :
    ∀ (lines : List InvoiceItemData) (db : DBState),
      (lines.foldl (processLine si invId) db).invoice_items =
        db.invoice_items ++ lineRows invId db.nextInvoiceItemId lines
  | [], db => by simp [lineRows]
  | l :: ls, db => by
    rw [List.foldl_cons, processLines_invoice_items si invId ls]
    have h1 : (processLine si invId db l).invoice_items = db.invoice_items ++
        [⟨db.nextInvoiceItemId, invId, l.item_id, l.quantity, l.unit_price,
          l.extended_amount⟩] := by
      unfold processLine
      split <;> rfl
    have h2 : (processLine si invId db l).nextInvoiceItemId =
        db.nextInvoiceItemId + 1 := by
      unfold processLine
      split <;> rfl
    rw [h1, h2, lineRows]
    simp

/-- The create-path loop never touches the `invoices` table. -/
theorem processLines_invoices (si : List Item) (invId : Nat) :
    ∀ (lines : List InvoiceItemData) (db : DBState),
      (lines.foldl (processLine si invId) db).invoices = db.invoices
  | [], _ => rfl
  | l :: ls, db => by
    rw [List.foldl_cons, processLines_invoices si invId ls]
    unfold processLine
    split <;> rfl

/-- Every row built by `lineRows` carries the new invoice's id. -/
theorem lineRows_invoice_id (invId : Nat) :
    ∀ (lines : List InvoiceItemData) (start : Nat),
      ∀ r ∈ lineRows invId start lines, r.invoice_id = invId
  | [], _, r, hr => absurd hr (List.not_mem_nil r)
  | l :: ls, start, r, hr => by
    rw [lineRows] at hr
    rcases List.mem_cons.mp hr with rfl | h
    · rfl
    · exact lineRows_invoice_id invId ls (start + 1) r h

/-- `lineRows` preserves each line's extended_amount, in order. -/
theorem lineRows_map_ext (invId : Nat) :
    ∀ (lines : List InvoiceItemData) (start : Nat),
      (lineRows invId start lines).map (fun r => r.extended_amount) =
        lines.map (fun l => l.extended_amount)
  | [], _ => rfl
  | l :: ls, start => by
    rw [lineRows, List.map_cons, List.map_cons, lineRows_map_ext invId ls]

/-- The reduce in `calculateTotals` is the sum of the extended amounts. -/
theorem foldl_add_extended :
    ∀ (lines : List InvoiceItemData) (a : Rat),
      lines.foldl (fun sum item => sum + item.extended_amount) a =
        a + (lines.map (fun l => l.extended_amount)).sum
  | [], a => by simp
  | l :: ls, a => by
    rw [List.foldl_cons, foldl_add_extended ls]
    simp [add_assoc]

/-- On the create path with valid inputs and a fresh invoice number,
`handleSave` succeeds and its result is the loop applied to the state
holding the new invoice row. -/
theorem handleSave_create_eq (db : DBState) (screenItems : List Item) (num : String)
    (cid : Nat) (date : String) (lines : List InvoiceItemData)
    (h1 : cid ≠ 0) (h2 : lines ≠ [])
    (h3 : db.invoices.any (fun inv => inv.invoice_number == num) = false) :
    handleSave db screenItems none num cid date lines =
      .ok (lines.foldl (processLine screenItems db.nextInvoiceId)
        { db with
          invoices := db.invoices ++
            [⟨db.nextInvoiceId, num, cid, date, (calculateTotals lines).1,
              (calculateTotals lines).2.1, (calculateTotals lines).2.2⟩],
          nextInvoiceId := db.nextInvoiceId + 1 }) := by
  unfold handleSave
  rw [if_neg (by simp [h1]), if_neg (by simp [h2])]
  unfold addInvoiceInner
  rw [h3]
  rfl

/-- C2: a saved invoice's persisted totals satisfy subtotal = Σ
extended_amount over its read-back line items, vat_amount = subtotal ×
0.15 and total_amount = subtotal + vat_amount: recomputing the totals
from the lines read back after the create matches the persisted row. -/
theorem C2_totals_roundtrip (db : DBState) (screenItems : List Item) (num : String)
    (cid : Nat) (date : String) (lines : List InvoiceItemData)
    (h1 : cid ≠ 0) (h2 : lines ≠ [])
    (h3 : ∀ inv ∈ db.invoices, inv.invoice_number ≠ num)
    (h4 : ∀ r ∈ db.invoice_items, r.invoice_id ≠ db.nextInvoiceId) :
    ∃ db', handleSave db screenItems none num cid date lines = .ok db' ∧
      ∃ inv ∈ getInvoicesInner db', inv.id = db.nextInvoiceId ∧
        inv.subtotal = ((getInvoiceItemsInner db' db.nextInvoiceId).map
          (fun r => r.extended_amount)).sum ∧
        inv.vat_amount = inv.subtotal * (15 / 100) ∧
        inv.total_amount = inv.subtotal + inv.vat_amount := by
  have hany : db.invoices.any (fun inv => inv.invoice_number == num) = false := by
    rw [List.any_eq_false]
    intro inv hi
    simp [h3 inv hi]
  refine ⟨_, handleSave_create_eq db screenItems num cid date lines h1 h2 hany, ?_⟩
  refine ⟨⟨db.nextInvoiceId, num, cid, date, (calculateTotals lines).1,
    (calculateTotals lines).2.1, (calculateTotals lines).2.2⟩, ?_, rfl, ?_, rfl, rfl⟩
  · unfold getInvoicesInner
    rw [List.mem_reverse, processLines_invoices]
    simp
  · unfold getInvoiceItemsInner
    rw [processLines_invoice_items]
    rw [List.filter_append]
    have hold : db.invoice_items.filter
        (fun r => r.invoice_id == db.nextInvoiceId) = [] := by
      rw [List.filter_eq_nil_iff]
      intro r hr
      simp [h4 r hr]
    have hnew : (lineRows db.nextInvoiceId db.nextInvoiceItemId lines).filter
        (fun r => r.invoice_id == db.nextInvoiceId) =
        lineRows db.nextInvoiceId db.nextInvoiceItemId lines :=
      list_filter_id_of_mem (fun r hr => by
        simp [lineRows_invoice_id db.nextInvoiceId lines db.nextInvoiceItemId r hr])
    rw [hold, hnew, List.nil_append, lineRows_map_ext]
    show (calculateTotals lines).1 = _
    unfold calculateTotals
    rw [foldl_add_extended]
    simp

/-- C2 witness: a concrete create at `db0` with one line of quantity 2
at unit price 5 satisfies the round-trip equalities. -/
theorem C2_totals_roundtrip_witness :
    ∃ db', handleSave db0 db0.items none "INV-000001" 1 "2024-01-01"
        [⟨1, "Widget", 2, 5, 10⟩] = .ok db' ∧
      ∃ inv ∈ getInvoicesInner db', inv.id = db0.nextInvoiceId ∧
        inv.subtotal = ((getInvoiceItemsInner db' db0.nextInvoiceId).map
          (fun r => r.extended_amount)).sum ∧
        inv.vat_amount = inv.subtotal * (15 / 100) ∧
        inv.total_amount = inv.subtotal + inv.vat_amount :=
  C2_totals_roundtrip db0 db0.items "INV-000001" 1 "2024-01-01"
    [⟨1, "Widget", 2, 5, 10⟩] (by decide) (by decide) (by decide) (by decide)

/-- A line aimed at a different item id leaves the row unchanged. -/
theorem lineQtyMap_skip {si : List Item} {l : InvoiceItemData} {it : Item}
    (h : l.item_id ≠ it.id) : lineQtyMap si l it = it := by
  unfold lineQtyMap
  split
  · rw [if_neg (by simp only [beq_iff_eq]; exact fun e => h e.symm)]
  · rfl

/-- `lineQtyMap` only ever rewrites the quantity field, never the id. -/
theorem lineQtyMap_id {si : List Item} {l : InvoiceItemData} {it : Item} :
    (lineQtyMap si l it).id = it.id := by
  unfold lineQtyMap
  split
  · split <;> rfl
  · rfl

/-- A row no line refers to survives the whole loop unchanged. -/
theorem applyLines_skip {si : List Item} :
    ∀ {lines : List InvoiceItemData} {it : Item},
      (∀ l ∈ lines, l.item_id ≠ it.id) → applyLines si lines it = it
  | [], _, _ => rfl
  | l :: ls, it, h => by
    show applyLines si ls (lineQtyMap si l it) = it
    rw [lineQtyMap_skip (h l (List.mem_cons_self l ls))]
    exact applyLines_skip (fun l' hl' => h l' (List.mem_cons_of_mem l hl'))

/-- The loop never rewrites an item row's id. -/
theorem applyLines_id {si : List Item} :
    ∀ {lines : List InvoiceItemData} {it : Item}, (applyLines si lines it).id = it.id
  | [], _ => rfl
  | l :: ls, it => by
    show (applyLines si ls (lineQtyMap si l it)).id = it.id
    rw [applyLines_id, lineQtyMap_id]

/-- `Math.max(0, x)` is never negative. -/
theorem jsMax_nonneg (x : Rat) : 0 ≤ jsMax 0 x := by
  unfold jsMax
  split
  · assumption
  · exact le_refl 0

/-- One loop step keeps a non-negative quantity non-negative. -/
theorem lineQtyMap_nonneg {si : List Item} {l : InvoiceItemData} {it : Item}
    (h : 0 ≤ it.quantity) : 0 ≤ (lineQtyMap si l it).quantity := by
  unfold lineQtyMap
  split
  · split
    · exact jsMax_nonneg _
    · exact h
  · exact h

/-- The whole loop keeps a non-negative quantity non-negative. -/
theorem applyLines_nonneg {si : List Item} :
    ∀ {lines : List InvoiceItemData} {it : Item},
      0 ≤ it.quantity → 0 ≤ (applyLines si lines it).quantity
  | [], _, h => h
  | l :: ls, it, h => by
    show 0 ≤ (applyLines si ls (lineQtyMap si l it)).quantity
    exact applyLines_nonneg (lineQtyMap_nonneg h)

/-- When each item is referenced by at most one line, the loop writes a
row referenced by line `l` to exactly the snapshot-clamped value. -/
theorem applyLines_eq_of_mem {si : List Item} {cur : Item} :
    ∀ {lines : List InvoiceItemData} {l : InvoiceItemData} {it : Item},
      l ∈ lines → (lines.map (fun l => l.item_id)).Nodup → it.id = l.item_id →
      si.find? (fun i => i.id == l.item_id) = some cur →
      applyLines si lines it = { it with quantity := jsMax 0 (cur.quantity - l.quantity) }
  | [], l, it, hl, _, _, _ => absurd hl (List.not_mem_nil l)
  | l' :: ls, l, it, hl, hnd, hid, hfind => by
    rw [List.map_cons, List.nodup_cons] at hnd
    rcases List.mem_cons.mp hl with rfl | hmem
    · show applyLines si ls (lineQtyMap si l it) = _
      have hstep : lineQtyMap si l it =
          { it with quantity := jsMax 0 (cur.quantity - l.quantity) } := by
        unfold lineQtyMap
        simp only [hfind]
        rw [if_pos (by simp [hid])]
      rw [hstep]
      refine applyLines_skip ?_
      intro l'' hl'' he
      apply hnd.1
      have he' : l''.item_id = l.item_id := he.trans hid
      exact he' ▸ List.mem_map_of_mem (fun l => l.item_id) hl''
    · have hne : l'.item_id ≠ l.item_id := fun he =>
        hnd.1 (he ▸ List.mem_map_of_mem (fun l => l.item_id) hmem)
      show applyLines si ls (lineQtyMap si l' it) = _
      rw [lineQtyMap_skip (fun he => hne (he.trans hid))]
      exact applyLines_eq_of_mem hmem hnd.2 hid hfind

/-- The create-path loop maps every item row through `applyLines`. -/
theorem processLines_items (si : List Item) (invId : Nat) :
    ∀ (lines : List InvoiceItemData) (db : DBState),
      (lines.foldl (processLine si invId) db).items =
        db.items.map (applyLines si lines)
  | [], db => by
    show db.items = db.items.map (fun it => it)
    rw [List.map_id']
  | l :: ls, db => by
    rw [List.foldl_cons, processLines_items si invId ls]
    have hstep : (processLine si invId db l).items = db.items.map (lineQtyMap si l) := by
      unfold processLine
      cases hf : si.find? (fun i => i.id == l.item_id) with
      | none =>
          show db.items = db.items.map (lineQtyMap si l)
          have : ∀ it ∈ db.items, lineQtyMap si l it = it := fun it _ => by
            unfold lineQtyMap
            rw [hf]
          rw [list_map_id_of_mem this]
      | some cur =>
          show db.items.map _ = db.items.map (lineQtyMap si l)
          apply List.map_congr_left
          intro it _
          unfold lineQtyMap
          rw [hf]
    rw [hstep, List.map_map]
    rfl

/-- Two item rows of a duplicate-free table with the same id coincide. -/
theorem item_id_inj {l : List Item} (h : (l.map (fun i => i.id)).Nodup)
    {a b : Item} (ha : a ∈ l) (hb : b ∈ l) (hid : a.id = b.id) : a = b :=
  List.inj_on_of_nodup_map h ha hb hid

/-- In a duplicate-free item table, looking an item's own id up finds it. -/
theorem find?_id_self :
    ∀ {l : List Item}, (l.map (fun i => i.id)).Nodup → ∀ {it : Item}, it ∈ l →
      l.find? (fun i => i.id == it.id) = some it
  | [], _, it, hit => absurd hit (List.not_mem_nil it)
  | i0 :: tl, h, it, hit => by
    rw [List.map_cons, List.nodup_cons] at h
    by_cases hi : i0.id = it.id
    · have : i0 = it := by
        rcases List.mem_cons.mp hit with rfl | hmem
        · rfl
        · exact absurd (hi ▸ List.mem_map_of_mem (fun i => i.id) hmem) h.1
      rw [List.find?_cons_of_pos _ (by simp [hi])]
      rw [this]
    · rw [List.find?_cons_of_neg _ (by simp [hi])]
      rcases List.mem_cons.mp hit with rfl | hmem
      · exact absurd rfl hi
      · exact find?_id_self h.2 hmem

/-- C1 counterexample: at `db0` (item 1 has stock 10), creating an
invoice whose two lines both reference item 1 with quantities 3 and 5
leaves item 1 at quantity 5 — each decrement is computed from the
screen's stale pre-save snapshot, so the claimed per-line equation
`post = max(0, 10 − 3)` = 7 fails for the first line. -/
theorem C1_stale_snapshot_cex :
    ¬ (∀ it' ∈ (match handleSave db0 db0.items none "INV-000001" 1 "2024-01-01" lines0 with
          | .ok d => d.items
          | .error _ => []),
        it'.id = 1 → it'.quantity = jsMax 0 ((10 : Rat) - 3)) := by decide

/-- C1 (amended): on invoice creation with each item referenced by at
most one line, every line's item ends at `max(0, q − n)` where `q` is its
pre-save stock and `n` the line quantity; and — with or without that
proviso — no item quantity is ever driven negative. -/
theorem C1_create_decrements_clamped (db : DBState) (num : String) (cid : Nat)
    (date : String) (lines : List InvoiceItemData)
    (h1 : cid ≠ 0) (h2 : lines ≠ [])
    (h3 : ∀ inv ∈ db.invoices, inv.invoice_number ≠ num)
    (h5 : (db.items.map (fun i => i.id)).Nodup)
    (h6 : (lines.map (fun l => l.item_id)).Nodup) :
    ∃ db', handleSave db db.items none num cid date lines = .ok db' ∧
      (∀ l ∈ lines, ∀ it ∈ db.items, it.id = l.item_id →
        ∀ it' ∈ db'.items, it'.id = l.item_id →
          it'.quantity = jsMax 0 (it.quantity - l.quantity)) ∧
      ((∀ it ∈ db.items, 0 ≤ it.quantity) → ∀ it' ∈ db'.items, 0 ≤ it'.quantity) := by
  have hany : db.invoices.any (fun inv => inv.invoice_number == num) = false := by
    rw [List.any_eq_false]
    intro inv hi
    simp [h3 inv hi]
  refine ⟨_, handleSave_create_eq db db.items num cid date lines h1 h2 hany, ?_, ?_⟩
  · intro l hl it hit hid it' hit' hid'
    rw [processLines_items] at hit'
    obtain ⟨it0, hit0, rfl⟩ := List.mem_map.mp hit'
    rw [applyLines_id] at hid'
    have he0 : it0 = it := item_id_inj h5 hit0 hit (hid'.trans hid.symm)
    subst he0
    have hfind : db.items.find? (fun i => i.id == l.item_id) = some it0 := by
      rw [← hid]
      exact find?_id_self h5 hit0
    rw [applyLines_eq_of_mem hl h6 hid hfind]
  · intro hpos it' hit'
    rw [processLines_items] at hit'
    obtain ⟨it0, hit0, rfl⟩ := List.mem_map.mp hit'
    exact applyLines_nonneg (hpos it0 hit0)

/-- C1 witness: at `db0`, a single line of quantity 3 against stock 10
saves successfully, and the amended conclusions hold there. -/
theorem C1_create_decrements_clamped_witness :
    ∃ db', handleSave db0 db0.items none "INV-000001" 1 "2024-01-01"
        [⟨1, "Widget", 3, 1, 3⟩] = .ok db' ∧
      (∀ l ∈ [(⟨1, "Widget", 3, 1, 3⟩ : InvoiceItemData)], ∀ it ∈ db0.items,
        it.id = l.item_id → ∀ it' ∈ db'.items, it'.id = l.item_id →
          it'.quantity = jsMax 0 (it.quantity - l.quantity)) ∧
      ((∀ it ∈ db0.items, 0 ≤ it.quantity) → ∀ it' ∈ db'.items, 0 ≤ it'.quantity) :=
  C1_create_decrements_clamped db0 "INV-000001" 1 "2024-01-01"
    [⟨1, "Widget", 3, 1, 3⟩] (by decide) (by decide) (by decide) (by decide) (by decide)

/-- A leading zero contributes nothing to the decoded value. -/
theorem fromDec_cons_zero (l : List Char) : fromDecList ('0' :: l) = fromDecList l := by
  unfold fromDecList
  rw [List.foldl_cons]
  have h : (0 : Nat) * 10 + ('0'.toNat - 48) = 0 := by decide
  rw [h]

/-- Any run of leading zeros contributes nothing to the decoded value. -/
theorem fromDec_replicate_zero :
    ∀ (k : Nat) (l : List Char), fromDecList (List.replicate k '0' ++ l) = fromDecList l
  | 0, _ => rfl
  | k + 1, l => by
    rw [List.replicate_succ, List.cons_append, fromDec_cons_zero]
    exact fromDec_replicate_zero k l

/-- Reading a digit character back yields the digit. -/
theorem digitChar_toNat {d : Nat} (h : d < 10) : (digitChar d).toNat - 48 = d := by
  interval_cases d <;> decide

/-- Decoding inverts the decimal rendering (with enough fuel). -/
theorem fromDec_toDecListAux :
    ∀ (fuel n : Nat), n < fuel → fromDecList (toDecListAux fuel n) = n
  | 0, n, h => absurd h (Nat.not_lt_zero n)
  | fuel + 1, n, h => by
    unfold toDecListAux
    split
    · rename_i h10
      simp [fromDecList, digitChar_toNat h10]
    · rename_i h10
      have happ : fromDecList (toDecListAux fuel (n / 10) ++ [digitChar (n % 10)]) =
          fromDecList (toDecListAux fuel (n / 10)) * 10 +
            ((digitChar (n % 10)).toNat - 48) := by
        unfold fromDecList
        rw [List.foldl_append]
        rfl
      have hdiv : n / 10 < fuel := by
        have := Nat.div_lt_self (by omega : 0 < n) (by omega : 1 < 10)
        omega
      rw [happ, fromDec_toDecListAux fuel (n / 10) hdiv,
        digitChar_toNat (Nat.mod_lt n (by omega))]
      omega

/-- Decoding inverts the full decimal rendering. -/
theorem fromDec_toDecList (n : Nat) : fromDecList (toDecList n) = n :=
  fromDec_toDecListAux (n + 1) n (Nat.lt_succ_self n)

/-- The numeric part of a generated invoice number is recovered exactly:
zero-padding to six digits never destroys the sequence value. -/
theorem decodeNum_mkNum (m : Nat) : decodeNum (mkNum m) = m := by
  show fromDecList ((("INV-" : String) ++ padStart (jsString m) 6 '0').data.drop 4) = m
  rw [String.data_append]
  show fromDecList ((['I', 'N', 'V', '-'] ++
    (List.replicate (6 - (jsString m).data.length) '0' ++ (jsString m).data)).drop 4) = m
  rw [List.cons_append, List.cons_append, List.cons_append, List.cons_append,
    List.drop_succ_cons, List.drop_succ_cons, List.drop_succ_cons, List.drop_succ_cons,
    List.drop_zero, List.nil_append]
  rw [fromDec_replicate_zero]
  exact fromDec_toDecList m

/-- The invoice-number scheme is injective: equal strings decode to equal
sequence values. -/
theorem mkNum_inj {a b : Nat} (h : mkNum a = mkNum b) : a = b := by
  have := congrArg decodeNum h
  rwa [decodeNum_mkNum, decodeNum_mkNum] at this

/-- Appending a row numbered `length + 1` to a sequentially numbered
table keeps it sequentially numbered. -/
theorem seq_append {l : List Invoice} {inv : Invoice}
    (hs : ∀ i (hi : i < l.length), (l.get ⟨i, hi⟩).invoice_number = mkNum (i + 1))
    (hinv : inv.invoice_number = mkNum (l.length + 1)) :
    ∀ i (hi : i < (l ++ [inv]).length),
      ((l ++ [inv]).get ⟨i, hi⟩).invoice_number = mkNum (i + 1) := by
  intro i hi
  have hi' : i < l.length + 1 := by
    rw [List.length_append, List.length_singleton] at hi
    exact hi
  by_cases hlt : i < l.length
  · rw [List.get_append _ hlt]
    exact hs i hlt
  · have hieq : i = l.length := by omega
    subst hieq
    rw [List.get_eq_getElem]
    rw [List.getElem_concat_length _ _ _ rfl]
    exact hinv

/-- In a run of creations over a sequentially numbered store, every
generated number is fresh, each insert succeeds, and the store stays
sequentially numbered: the i-th invoice row carries `mkNum (i+1)`. -/
theorem runCreate_numbers :
    ∀ (ps : List CreateParams) (db : DBState),
      (∀ i (hi : i < db.invoices.length),
        (db.invoices.get ⟨i, hi⟩).invoice_number = mkNum (i + 1)) →
      (runCreate db ps).invoices.length = db.invoices.length + ps.length ∧
      (∀ i (hi : i < (runCreate db ps).invoices.length),
        ((runCreate db ps).invoices.get ⟨i, hi⟩).invoice_number = mkNum (i + 1))
  | [], db, hseq => ⟨rfl, hseq⟩
  | p :: ps, db, hseq => by
    have hany : db.invoices.any
        (fun inv => inv.invoice_number == generateInvoiceNumberInner db) = false := by
      rw [List.any_eq_false]
      intro inv hinv
      obtain ⟨⟨i, hi⟩, rfl⟩ := List.mem_iff_get.mp hinv
      rw [hseq i hi]
      simp only [beq_iff_eq]
      intro he
      have : i + 1 = db.invoices.length + 1 :=
        mkNum_inj (he.trans (rfl : generateInvoiceNumberInner db =
          mkNum (db.invoices.length + 1)))
      omega
    have hok : addInvoiceInner db (generateInvoiceNumberInner db) p.customerId
        p.invoiceDate p.subtotal p.vatAmount p.totalAmount =
        .ok (db.nextInvoiceId,
          { db with
            invoices := db.invoices ++
              [⟨db.nextInvoiceId, generateInvoiceNumberInner db, p.customerId,
                p.invoiceDate, p.subtotal, p.vatAmount, p.totalAmount⟩],
            nextInvoiceId := db.nextInvoiceId + 1 }) := by
      unfold addInvoiceInner
      rw [hany]
      rfl
    have hstep : runCreate db (p :: ps) = runCreate
        { db with
          invoices := db.invoices ++
            [⟨db.nextInvoiceId, generateInvoiceNumberInner db, p.customerId,
              p.invoiceDate, p.subtotal, p.vatAmount, p.totalAmount⟩],
          nextInvoiceId := db.nextInvoiceId + 1 } ps := by
      conv_lhs => unfold runCreate
      rw [hok]
    rw [hstep]
    have h := runCreate_numbers ps
      { db with
        invoices := db.invoices ++
          [⟨db.nextInvoiceId, generateInvoiceNumberInner db, p.customerId,
            p.invoiceDate, p.subtotal, p.vatAmount, p.totalAmount⟩],
        nextInvoiceId := db.nextInvoiceId + 1 }
      (seq_append hseq rfl)
    refine ⟨?_, h.2⟩
    rw [h.1]
    have hlen : (db.invoices ++
        [(⟨db.nextInvoiceId, generateInvoiceNumberInner db, p.customerId,
          p.invoiceDate, p.subtotal, p.vatAmount, p.totalAmount⟩ : Invoice)]).length =
        db.invoices.length + 1 := by
      rw [List.length_append, List.length_singleton]
    rw [show ({ db with
        invoices := db.invoices ++
          [⟨db.nextInvoiceId, generateInvoiceNumberInner db, p.customerId,
            p.invoiceDate, p.subtotal, p.vatAmount, p.totalAmount⟩],
        nextInvoiceId := db.nextInvoiceId + 1 } : DBState).invoices =
      db.invoices ++
        [⟨db.nextInvoiceId, generateInvoiceNumberInner db, p.customerId,
          p.invoiceDate, p.subtotal, p.vatAmount, p.totalAmount⟩] from rfl]
    rw [hlen, List.length_cons]
    omega

/-- C4: `generateInvoiceNumber()` returns `INV-` + (count + 1) zero-padded
to six digits — the padding loses nothing, the count is recovered by
decoding — and in a run of N creations from an empty store the n-th
invoice receives `INV-` + n zero-padded to six digits. -/
theorem C4_invoice_number_sequence (db : DBState) (ps : List CreateParams) (n : Nat)
    (hn : n < ps.length) :
    generateInvoiceNumberInner db =
      "INV-" ++ padStart (jsString (db.invoices.length + 1)) 6 '0' ∧
    decodeNum (generateInvoiceNumberInner db) = db.invoices.length + 1 ∧
    (runCreate emptyDB ps).invoices[n]?.map (fun inv => inv.invoice_number) =
      some ("INV-" ++ padStart (jsString (n + 1)) 6 '0') := by
  refine ⟨rfl, decodeNum_mkNum _, ?_⟩
  have h := runCreate_numbers ps emptyDB
    (by intro i hi; exact absurd hi (Nat.not_lt_zero i))
  have hn' : n < (runCreate emptyDB ps).invoices.length := by
    rw [h.1]
    have h0 : emptyDB.invoices.length = 0 := rfl
    omega
  rw [List.getElem?_eq_getElem hn']
  rw [Option.map_some']
  show some ((runCreate emptyDB ps).invoices.get ⟨n, hn'⟩).invoice_number = _
  rw [h.2 n hn']
  rfl

/-- C4 witness: in a run of 42 creations from the empty store, the 42nd
invoice (index 41) receives `INV-000042`. -/
theorem C4_invoice_number_sequence_witness :
    (41 < ps42.length ∧
      (runCreate emptyDB ps42).invoices[41]?.map (fun inv => inv.invoice_number) =
        some ("INV-" ++ padStart (jsString 42) 6 '0')) ∧
    ("INV-" ++ padStart (jsString 42) 6 '0') = "INV-000042" :=
  ⟨⟨by decide, (C4_invoice_number_sequence emptyDB ps42 41 (by decide)).2.2⟩, by decide⟩

end Inventory
